import Mathlib

/-!
Verification development for the screen-awake repository: a display-hold
(wake lock) lifecycle manager (`src/hooks/useWakeLock.ts`), a scheduled
YouTube playback controller (`src/unnamed/part_001`, the `YouTubeScheduler`
component with radio mode), and the locator resolver `parseYouTubeVideoUrl`.

The embedding translates the TypeScript sources into executable Lean
definitions: timestamps are `Int` (the code compares `Date` objects),
React state is an explicit record, the `useEffect` player lifecycle is a
cleanup-then-body step fired when its dependency tuple changes, and the
JS regex used by `parseYouTubeVideoUrl` is embedded as an
ordered-backtracking matcher whose alternatives are tried in the order a
JS regex engine tries them (leftmost start position first; at a given
position, alternation left-to-right, greedy quantifiers longest-first,
lazy quantifiers shortest-first).
-/

namespace ScreenAwake

/-! ### ContentResolver: `parseYouTubeVideoUrl`

Source regex (src/unnamed/part_001 line 5, identical in
src/components/YouTubeScheduler.tsx line 6):

  (?:https?:\/\/)?(?:www\.)?(?:youtube\.com\/(?:[^\/\n\s]+\/\S+\/|(?:v|e(?:mbed)?)\/|\S*?[?&]v=)|youtu\.be\/)([a-zA-Z0-9_-]{11})

A matcher takes the input suffix and returns the list of possible
remaining suffixes, in the order the JS engine would produce them. -/

/-- JS `\s` restricted to its ASCII members (the sources only ever feed
ASCII URLs; the Unicode space members of `\s` are not modelled). -/
def isWsChar (c : Char) : Bool :=
  c = ' ' || c = '\t' || c = '\n' || c = '\r' || c = '\x0b' || c = '\x0c'

/-- Character class `[a-zA-Z0-9_-]` of the capture group. -/
def isIdChar (c : Char) : Bool :=
  c.isAlpha || c.isDigit || c = '_' || c = '-'

/-- Character class `[^\/\n\s]` (note `\n` is already in `\s`). -/
def isNotSlashWs (c : Char) : Bool :=
  !(c = '/' || isWsChar c)

/-- Character class `\S`. -/
def isNotWs (c : Char) : Bool :=
  !(isWsChar c)

/-- Character class `[?&]`. -/
def isQAmp (c : Char) : Bool :=
  c = '?' || c = '&'

/-- Match one literal character. -/
def litP (c : Char) : List Char → List (List Char)
  | [] => []
  | c2 :: rest => if c2 = c then [rest] else []

/-- Match one character of a class. -/
def classP (p : Char → Bool) : List Char → List (List Char)
  | [] => []
  | c :: rest => if p c then [rest] else []

/-- Match a literal string of characters. -/
def strP : List Char → List Char → List (List Char)
  | [], cs => [cs]
  | _ :: _, [] => []
  | p :: ps, c :: cs => if c = p then strP ps cs else []

/-- Match a literal Lean string. -/
def strLit (s : String) : List Char → List (List Char) :=
  strP s.data

/-- Sequencing: run `f`, then `g` on each remainder, keeping order. -/
def seqP (f g : List Char → List (List Char)) (cs : List Char) : List (List Char) :=
  (f cs).flatMap g

/-- Ordered alternation `(?:f|g)`: the left alternative is tried first. -/
def altP (f g : List Char → List (List Char)) (cs : List Char) : List (List Char) :=
  f cs ++ g cs

/-- Greedy option `(?:f)?`: presence is tried before absence. -/
def optP (f : List Char → List (List Char)) (cs : List Char) : List (List Char) :=
  f cs ++ [cs]

/-- Length of the maximal prefix run of characters satisfying `p`. -/
def classRun (p : Char → Bool) : List Char → Nat
  | [] => 0
  | c :: cs => if p c then classRun p cs + 1 else 0

/-- Greedy `+` over a character class: consume `run, run-1, ..., 1`
characters, in that (longest-first) order. -/
def plusGreedy (p : Char → Bool) (cs : List Char) : List (List Char) :=
  (List.range (classRun p cs)).map (fun k => cs.drop (classRun p cs - k))

/-- Lazy `*?` over a character class: consume `0, 1, ..., run`
characters, in that (shortest-first) order. -/
def starLazy (p : Char → Bool) (cs : List Char) : List (List Char) :=
  (List.range (classRun p cs + 1)).map (fun k => cs.drop k)

/-- Source `(?:https?:\/\/)?` -/
def protoP : List Char → List (List Char) :=
  optP (seqP (strLit "http") (seqP (optP (litP 's')) (strLit "://")))

/-- Source `(?:www\.)?` -/
def wwwP : List Char → List (List Char) :=
  optP (strLit "www.")

/-- Source `[^\/\n\s]+\/\S+\/` -/
def altAP : List Char → List (List Char) :=
  seqP (plusGreedy isNotSlashWs) (seqP (litP '/') (seqP (plusGreedy isNotWs) (litP '/')))

/-- Source `(?:v|e(?:mbed)?)\/` -/
def altBP : List Char → List (List Char) :=
  seqP (altP (litP 'v') (seqP (litP 'e') (optP (strLit "mbed")))) (litP '/')

/-- Source `\S*?[?&]v=` -/
def altCP : List Char → List (List Char) :=
  seqP (starLazy isNotWs) (seqP (classP isQAmp) (strLit "v="))

/-- Source `(?:youtube\.com\/(?:A|B|C)|youtu\.be\/)` -/
def hostP : List Char → List (List Char) :=
  altP (seqP (strLit "youtube.com/") (altP altAP (altP altBP altCP))) (strLit "youtu.be/")

/-- Everything before the capture group. -/
def preCaptureP : List Char → List (List Char) :=
  seqP protoP (seqP wwwP hostP)

/-- The capture group `([a-zA-Z0-9_-]{11})`: exactly 11 class characters
taken from the front of the remainder (the regex ends after the group, so
trailing characters are ignored). -/
def captureId (cs : List Char) : Option String :=
  let g := cs.take 11
  if g.length = 11 && g.all isIdChar then some (String.mk g) else none

/-- First remainder (in engine order) at which the capture succeeds. -/
def firstCapture : List (List Char) → Option String
  | [] => none
  | r :: rs =>
    match captureId r with
    | some s => some s
    | none => firstCapture rs

/-- Try the whole regex anchored at the current position. -/
def matchFrom (cs : List Char) : Option String :=
  firstCapture (preCaptureP cs)

/-- Source `String.prototype.match` without the global flag: the leftmost
starting position wins. -/
def scanMatch : List Char → Option String
  | [] => matchFrom []
  | c :: rest =>
    match matchFrom (c :: rest) with
    | some s => some s
    | none => scanMatch rest

/-- Source `parseYouTubeVideoUrl` (src/unnamed/part_001 lines 3-11): returns the
captured 11-character video id, or `none` (the source's `null`). -/
def parseYouTubeVideoUrl (url : String) : Option String :=
  scanMatch url.data

/-! ### DisplayHoldManager: `useWakeLock` (src/hooks/useWakeLock.ts)

React state (`isActive`, `error`), the sentinel ref
(`wakeLockSentinel.current`, modelled as a Bool: is a sentinel held?) and
the intent ref (`userIntentRef.current`).  The async outcome of
`navigator.wakeLock.request` / `sentinel.release()` is passed in as an
explicit outcome parameter; `isSupported` is an environment constant
passed as a parameter. -/

structure WakeLockState where
  isActive : Bool
  error : Option String
  sentinel : Bool
  userIntent : Bool
deriving DecidableEq

/-- Outcome of `navigator.wakeLock.request('screen')`. -/
inductive AcquireOutcome
  | success
  | notAllowed
  | otherFailure (msg : String)
deriving DecidableEq

/-- Outcome of `sentinel.release()`. -/
inductive ReleaseOutcome
  | success
  | failure (msg : String)
deriving DecidableEq

/-- The permission-denied message set in the `NotAllowedError` branch. -/
def permissionDeniedMsg : String :=
  "Wake Lock permission was denied by the browser. The app will still function, but your screen may turn off. This can happen if the feature is disabled by a permissions policy."

/-- Source `requestWakeLock` (lines 12-42): on success store the sentinel, set
active, clear the error; on failure clear `userIntent`, record the
classified error, set inactive (the sentinel ref is not written in the
catch branch). -/
def requestWakeLock (supported : Bool) (o : AcquireOutcome) (s : WakeLockState) : WakeLockState :=
  if !supported then s
  else
    match o with
    | .success => { s with sentinel := true, isActive := true, error := none }
    | .notAllowed =>
        { s with userIntent := false, error := some permissionDeniedMsg, isActive := false }
    | .otherFailure msg =>
        { s with userIntent := false,
                 error := some ("An unexpected error occurred: " ++ msg),
                 isActive := false }

/-- Source `sentinel.onrelease` (lines 18-23): external revocation; clears the
active flag and the sentinel ref, leaves `userIntent` and `error` alone. -/
def onRelease (s : WakeLockState) : WakeLockState :=
  { s with isActive := false, sentinel := false }

/-- Source `releaseWakeLock` (lines 44-55): if a sentinel is held, ask it to
release; on success the `onrelease` callback performs the state changes;
on failure only `error` is set. -/
def releaseWakeLock (o : ReleaseOutcome) (s : WakeLockState) : WakeLockState :=
  if s.sentinel then
    match o with
    | .success => onRelease s
    | .failure msg => { s with error := some msg }
  else s

/-- Source `acquireLock` (lines 57-63).  The second component records whether
`requestWakeLock` was invoked (a new acquisition attempt). -/
def acquireLock (supported : Bool) (o : AcquireOutcome) (s : WakeLockState) :
    WakeLockState × Bool :=
  if !s.isActive then
    (requestWakeLock supported o { s with userIntent := true, error := none }, true)
  else (s, false)

/-- Source `releaseLock` (lines 65-70): a no-op unless currently active. -/
def releaseLock (o : ReleaseOutcome) (s : WakeLockState) : WakeLockState :=
  if s.isActive then releaseWakeLock o { s with userIntent := false } else s

/-- Source `handleVisibilityChange` (lines 76-81); the listener is only
registered when supported (line 74).  The second component records
whether `requestWakeLock` was invoked. -/
def handleVisibilityChange (supported : Bool) (visible : Bool) (o : AcquireOutcome)
    (s : WakeLockState) : WakeLockState × Bool :=
  if supported && s.userIntent && visible then (requestWakeLock supported o s, true)
  else (s, false)

/-! ### PlaybackScheduler: `YouTubeScheduler` (src/unnamed/part_001)

React component state plus the two refs (`timerRef`, `playerRef`).  The
pending one-shot timer is `timer : Option Int` (absolute fire time;
`none` when no callback is pending).  `playerRef : Bool` says whether the
ref holds a player instance and `liveInstances` counts created-minus-
destroyed external player instances, so that "at most one live instance"
is a provable fact rather than a modelling assumption. -/

inductive PlaybackState
  | idle
  | playing
  | finished
deriving DecidableEq

structure PlaylistItem where
  id : String
  url : String
deriving DecidableEq

inductive Mode
  | SingleLoop
  | CollectionSequential
  | CollectionLooped
  | RelatedStream
deriving DecidableEq

/-- Source `isUserPlaylist` (line 56): `playlist.length > 1 && !radioMode`. -/
def isUserPlaylist (n : Nat) (radioMode : Bool) : Bool :=
  decide (n > 1) && !radioMode

/-- Source `isSingleLooping` (line 57): `playlist.length === 1 && loop`. -/
def isSingleLooping (n : Nat) (loop : Bool) : Bool :=
  decide (n = 1) && loop

/-- Source `isRadioOrSingleNoLoop` (line 58): `(playlist.length === 1 && !loop) || radioMode`. -/
def isRadioOrSingleNoLoop (n : Nat) (loop radioMode : Bool) : Bool :=
  (decide (n = 1) && !loop) || radioMode

/-- The `finalPlayerConfig` branch chain (lines 106-138): the first
matching guard decides the player configuration; within the user-playlist
branch `setLoop(true)` (line 115) distinguishes the looped collection
from the sequential one. -/
def selectMode (n : Nat) (loop radioMode : Bool) : Option Mode :=
  if isUserPlaylist n radioMode then
    some (if loop then Mode.CollectionLooped else Mode.CollectionSequential)
  else if isSingleLooping n loop then
    some Mode.SingleLoop
  else if isRadioOrSingleNoLoop n loop radioMode then
    some Mode.RelatedStream
  else none

/-- The mode table as the spec's §4.3 words it, for the refinement
comparison with `selectMode`. -/
def specModeTable (n : Nat) (loop relatedMode : Bool) : Option Mode :=
  if decide (n > 1) && !relatedMode then
    some (if loop then Mode.CollectionLooped else Mode.CollectionSequential)
  else if decide (n = 1) && loop && !relatedMode then
    some Mode.SingleLoop
  else if (decide (n = 1) && !loop) || relatedMode then
    some Mode.RelatedStream
  else none

structure SchedState where
  url : String
  playlist : List PlaylistItem
  shutdownTime : Int
  statusMessage : Option String
  playbackState : PlaybackState
  autoClose : Bool
  loop : Bool
  radioMode : Bool
  timer : Option Int
  playerRef : Bool
  liveInstances : Nat
  currentlyPlayingIndex : Option Nat
deriving DecidableEq

/-- The `useEffect` cleanup (lines 155-160): destroy the instance held by
`playerRef`, if any. -/
def destroyPlayer (s : SchedState) : SchedState :=
  if s.playerRef then
    { s with playerRef := false, liveInstances := s.liveInstances - 1 }
  else s

/-- Source `new window.YT.Player(...)` (line 141): a fresh external instance,
stored in `playerRef`. -/
def createPlayer (s : SchedState) : SchedState :=
  { s with playerRef := true, liveInstances := s.liveInstances + 1 }

/-- One run of the player-lifecycle `useEffect` (lines 48-161): React
first runs the previous effect's cleanup, then the body, which creates a
player exactly when `playbackState === 'playing' && playlist.length > 0`
(the YT IFrame API is taken as ready, so `createPlayer` runs
synchronously). -/
def runEffect (s : SchedState) : SchedState :=
  let s1 := destroyPlayer s
  if s1.playbackState = PlaybackState.playing ∧ s1.playlist ≠ [] then createPlayer s1
  else s1

/-- The effect's dependency tuple `[playbackState, playlist, loop, radioMode]`
(line 161). -/
def deps (s : SchedState) : PlaybackState × List PlaylistItem × Bool × Bool :=
  (s.playbackState, s.playlist, s.loop, s.radioMode)

/-- Source `handleAddVideo` (lines 172-186).  The submitted locator is `s.url`. -/
def handleAddVideo (s : SchedState) : SchedState :=
  match parseYouTubeVideoUrl s.url with
  | none => { s with statusMessage := some "Invalid YouTube video URL." }
  | some videoId =>
    if s.playlist.any (fun v => v.id = videoId) then
      { s with statusMessage := some "This video is already in the playlist." }
    else
      { s with playlist := s.playlist ++ [{ id := videoId, url := s.url }],
               url := "",
               statusMessage := some "Video added to playlist." }

/-- Source `handleRemoveVideo` (lines 188-190). -/
def handleRemoveVideo (idToRemove : String) (s : SchedState) : SchedState :=
  { s with playlist := s.playlist.filter (fun v => v.id ≠ idToRemove) }

/-- Source `handleSchedule` (lines 192-237) up to arming the timer.  `now` is
the current wall-clock instant; the timer is armed to fire at
`shutdownTime` (`delay = shutdownDate - now`).  The second component
records whether `acquireLock()` was called. -/
def handleSchedule (now : Int) (s : SchedState) : SchedState × Bool :=
  if s.playlist.length = 0 then
    ({ s with statusMessage := some "Please add at least one video." }, false)
  else
    let s1 := { s with timer := none }
    if s.shutdownTime ≤ now then
      ({ s1 with statusMessage := some "Scheduled time must be in the future." }, false)
    else
      ({ s1 with playbackState := PlaybackState.playing,
                 statusMessage := some "Loading player and starting timer...",
                 timer := some s.shutdownTime }, true)

/-- Locale time formatting (`toLocaleTimeString`) abstracted to a plain
rendering of the timestamp; no claim concerns the rendered text. -/
def formatTime (t : Int) : String :=
  toString t

/-- The deadline timer callback (lines 217-236).  The second component
records whether `releaseLock()` was called.  In the auto-close branch the
status message is not written (the document is replaced instead). -/
def timerFire (s : SchedState) : SchedState × Bool :=
  ({ s with playbackState := PlaybackState.finished,
            timer := none,
            statusMessage :=
              if s.autoClose then s.statusMessage
              else some ("Scheduled time reached. Playback stopped at "
                           ++ formatTime s.shutdownTime ++ ".") }, true)

/-- Source `handleCancel` (lines 239-246).  The second component records whether
`releaseLock()` was called. -/
def handleCancel (s : SchedState) : SchedState × Bool :=
  ({ s with timer := none,
            playbackState := PlaybackState.idle,
            statusMessage := some "Playback and timer canceled." }, true)

/-- Source `handleReset` (lines 248-262).  `defaultShutdown` stands for
`getDefaultShutdownTime()` (now + 2h).  The second component records
whether `releaseLock()` was called. -/
def handleReset (defaultShutdown : Int) (s : SchedState) : SchedState × Bool :=
  ({ s with timer := none,
            playbackState := PlaybackState.idle,
            url := "",
            playlist := [],
            currentlyPlayingIndex := none,
            statusMessage := none,
            shutdownTime := defaultShutdown,
            autoClose := false,
            loop := false,
            radioMode := false }, true)

/-- The fixed unplayable-code set (line 90). -/
def unplayableErrorCodes : List Int :=
  [2, 5, 100, 101, 150]

/-- The `onError` player callback (lines 87-102).  The guards are the
ones captured at player-creation time; while a player is live the UI
offers no control that changes `playlist`, `loop` or `radioMode`, so they
equal the current values.  The second component records whether
`event.target.nextVideo()` was called. -/
def onError (errorCode : Int) (s : SchedState) : SchedState × Bool :=
  let n := s.playlist.length
  let shouldAutoSkip := isUserPlaylist n s.radioMode || isRadioOrSingleNoLoop n s.loop s.radioMode
  if shouldAutoSkip && unplayableErrorCodes.contains errorCode then
    ({ s with statusMessage := some "Unplayable video detected, skipping to next..." }, true)
  else (s, false)

/-- The `onStateChange` player callback in its PLAYING branch
(lines 68-85): refresh the status when a timer is pending and record the
player-reported index in user-playlist mode (0 otherwise). -/
def onPlaying (reportedIndex : Nat) (s : SchedState) : SchedState :=
  let s1 :=
    if s.timer.isSome then
      { s with statusMessage := some ("Timer set. Playback will stop at "
                                        ++ formatTime s.shutdownTime ++ ".") }
    else s
  if isUserPlaylist s.playlist.length s.radioMode then
    { s1 with currentlyPlayingIndex := some reportedIndex }
  else
    { s1 with currentlyPlayingIndex := some 0 }

/-! #### Event-trace model

Each discrete external event runs its handler to completion and then, if
the effect dependencies changed, the player-lifecycle effect
(cleanup, then body) — React's commit for the `useEffect` at lines
48-161.  Handlers are guarded by the state in which the UI renders the
corresponding control: the add/remove/url/toggle/schedule controls only
exist in the `idle` branch of `renderContent`, the cancel button only in
`playing`, the reset button only in `finished`; the timer callback only
runs while armed, and player callbacks only come from a live instance. -/

inductive Event
  | setUrl (u : String)
  | addVideo
  | removeVideo (id : String)
  | toggleLoop (b : Bool)
  | toggleRadio (b : Bool)
  | toggleAutoClose (b : Bool)
  | setShutdown (t : Int)
  | schedule (now : Int)
  | cancel
  | reset (defaultShutdown : Int)
  | deadline
  | playerError (code : Int)
  | playerPlaying (reportedIndex : Nat)

/-- The handler reaction to one event (before the effect re-runs). -/
def applyEvent (e : Event) (s : SchedState) : SchedState :=
  match e with
  | .setUrl u =>
      if s.playbackState = PlaybackState.idle then { s with url := u } else s
  | .addVideo =>
      if s.playbackState = PlaybackState.idle then handleAddVideo s else s
  | .removeVideo i =>
      if s.playbackState = PlaybackState.idle then handleRemoveVideo i s else s
  | .toggleLoop b =>
      if s.playbackState = PlaybackState.idle then
        { s with loop := b, radioMode := if b then false else s.radioMode }
      else s
  | .toggleRadio b =>
      if s.playbackState = PlaybackState.idle then
        { s with radioMode := b, loop := if b then false else s.loop }
      else s
  | .toggleAutoClose b =>
      if s.playbackState = PlaybackState.idle then { s with autoClose := b } else s
  | .setShutdown t =>
      if s.playbackState = PlaybackState.idle then { s with shutdownTime := t } else s
  | .schedule now =>
      if s.playbackState = PlaybackState.idle then (handleSchedule now s).1 else s
  | .cancel =>
      if s.playbackState = PlaybackState.playing then (handleCancel s).1 else s
  | .reset d =>
      if s.playbackState = PlaybackState.finished then (handleReset d s).1 else s
  | .deadline =>
      if s.timer.isSome then (timerFire s).1 else s
  | .playerError c =>
      if s.playerRef then (onError c s).1 else s
  | .playerPlaying i =>
      if s.playerRef then onPlaying i s else s

/-- One full reaction: handler, then effect re-run when its dependency
tuple changed. -/
def step (e : Event) (s : SchedState) : SchedState :=
  let s1 := applyEvent e s
  if deps s = deps s1 then s1 else runEffect s1

/-- The component's initial state (`useState` initialisers, lines 36-46);
`defaultShutdown` stands for `getDefaultShutdownTime()`. -/
def initState (defaultShutdown : Int) : SchedState :=
  { url := ""
    playlist := []
    shutdownTime := defaultShutdown
    statusMessage := none
    playbackState := PlaybackState.idle
    autoClose := false
    loop := false
    radioMode := false
    timer := none
    playerRef := false
    liveInstances := 0
    currentlyPlayingIndex := none }

/-- Run a list of events from the initial state. -/
def run (defaultShutdown : Int) (es : List Event) : SchedState :=
  es.foldl (fun s e => step e s) (initState defaultShutdown)

/-! #### Combined application state (App.tsx wires the two together:
`YouTubeScheduler` receives `acquireLock`/`releaseLock` from
`useWakeLock`). -/

structure AppState where
  sched : SchedState
  lock : WakeLockState
deriving DecidableEq

/-- Source `handleSchedule` at the application level: the scheduler handler runs
(calling `acquireLock` when it reaches line 212, with outcome `o`), then
the player effect re-runs if its dependencies changed. -/
def scheduleApp (now : Int) (o : AcquireOutcome) (a : AppState) : AppState :=
  let r := handleSchedule now a.sched
  let s1 := if deps a.sched = deps r.1 then r.1 else runEffect r.1
  { sched := s1,
    lock := if r.2 then (acquireLock true o a.lock).1 else a.lock }

/-- The reachable-state invariant of the scheduler trace model: the
player ref is live exactly while playing (with content), the instance
count equals the ref count, playing implies a non-empty playlist, a
pending timer implies playing, and playlist ids are pairwise distinct. -/
def Inv (s : SchedState) : Prop :=
  (s.playerRef = true ↔ (s.playbackState = PlaybackState.playing ∧ s.playlist ≠ [])) ∧
  s.liveInstances = (if s.playerRef then 1 else 0) ∧
  (s.playbackState = PlaybackState.playing → s.playlist ≠ []) ∧
  (s.timer.isSome = true → s.playbackState = PlaybackState.playing) ∧
  (s.playlist.map PlaylistItem.id).Nodup

/-- A reachable `SingleLoop` session: one item, `loop = true`, playing
with a live player and an armed timer, no status message. -/
def singleLoopState : SchedState :=
  { initState 0 with
      playlist := [{ id := "dQw4w9WgXcQ", url := "https://youtu.be/dQw4w9WgXcQ" }],
      loop := true,
      playbackState := PlaybackState.playing,
      playerRef := true,
      liveInstances := 1,
      timer := some 100 }

/-- A reachable two-item sequential session used to witness the
auto-advance half of the amended C2. -/
def twoItemState : SchedState :=
  { initState 0 with
      playlist := [{ id := "dQw4w9WgXcQ", url := "u1" }, { id := "AAAAAAAAAAA", url := "u2" }],
      playbackState := PlaybackState.playing,
      playerRef := true,
      liveInstances := 1,
      timer := some 100 }

/-- A concrete ready-to-schedule application state. -/
def readyAppState : AppState :=
  { sched := { initState 10 with
                 playlist := [{ id := "dQw4w9WgXcQ", url := "https://youtu.be/dQw4w9WgXcQ" }] },
    lock := { isActive := false, error := none, sentinel := false, userIntent := false } }

/-- Does the first character list occur at the head of the second? -/
def headMatches : List Char → List Char → Bool
  | [], _ => true
  | _ :: _, [] => false
  | p :: ps, c :: cs => p = c && headMatches ps cs

/-- Does the first character list occur anywhere inside the second? -/
def containsSub (pat : List Char) : List Char → Bool
  | [] => headMatches pat []
  | c :: cs => headMatches pat (c :: cs) || containsSub pat cs

/-- Modelled from the spec: a "collection marker" in a YouTube locator is
the playlist parameter `list=` (the explicit multi-item reference the
spec's §4.2 says is checked first). -/
def hasCollectionMarker (url : String) : Bool :=
  containsSub "list=".data url.data

/-- A locator carrying both a collection marker and a single-item marker. -/
def collectionCexUrl : String :=
  "https://www.youtube.com/watch?v=dQw4w9WgXcQ&list=PLAAAAAAAAAAAAAA"

/-- An idle state whose pending locator parses to an id already present
in the playlist. -/
def dupUrlState : SchedState :=
  { initState 0 with
      url := "https://youtu.be/dQw4w9WgXcQ",
      playlist := [{ id := "dQw4w9WgXcQ", url := "x" }] }

/-! ### Sanity checks of the embedded resolver against observed JS
regex behaviour -/

example : parseYouTubeVideoUrl "https://www.youtube.com/watch?v=dQw4w9WgXcQ" =
    some "dQw4w9WgXcQ" := by
  decide

example : parseYouTubeVideoUrl "https://youtu.be/dQw4w9WgXcQ" = some "dQw4w9WgXcQ" := by
  decide

example : parseYouTubeVideoUrl "https://www.youtube.com/playlist?list=PLAAAAAAAAAAAAAA" =
    none := by
  decide

example : parseYouTubeVideoUrl "not a url" = none := by
  decide

/-! ### Claims about the DisplayHoldManager -/

/-- C3: after a successful `acquire()` the hold can be externally revoked;
the revocation callback leaves the manager inactive with the handle
cleared but `userIntent` still true, and a subsequent visibility
restoration (while the hold is inactive and intent persists) issues a new
acquisition attempt. -/
theorem userIntent_survives_revocation (s : WakeLockState) (o : AcquireOutcome)
    (h : s.isActive = false) :
    ((onRelease (acquireLock true AcquireOutcome.success s).1).isActive = false) ∧
    ((onRelease (acquireLock true AcquireOutcome.success s).1).sentinel = false) ∧
    ((onRelease (acquireLock true AcquireOutcome.success s).1).userIntent = true) ∧
    (handleVisibilityChange true true o
        (onRelease (acquireLock true AcquireOutcome.success s).1)).2 = true := by
  simp [acquireLock, requestWakeLock, onRelease, handleVisibilityChange, h]

theorem userIntent_survives_revocation_witness :
    ((onRelease (acquireLock true AcquireOutcome.success
        { isActive := false, error := none, sentinel := false, userIntent := false }).1).isActive = false) ∧
    ((onRelease (acquireLock true AcquireOutcome.success
        { isActive := false, error := none, sentinel := false, userIntent := false }).1).sentinel = false) ∧
    ((onRelease (acquireLock true AcquireOutcome.success
        { isActive := false, error := none, sentinel := false, userIntent := false }).1).userIntent = true) ∧
    (handleVisibilityChange true true AcquireOutcome.success
        (onRelease (acquireLock true AcquireOutcome.success
          { isActive := false, error := none, sentinel := false, userIntent := false }).1)).2 = true :=
  userIntent_survives_revocation
    { isActive := false, error := none, sentinel := false, userIntent := false }
    AcquireOutcome.success rfl

/-- C6 counterexample: in the reachable state "hold externally revoked
while intent persists" (inactive, `userIntent = true`), `releaseLock` is
a guarded no-op, so `userIntent` stays `true` — refuting "for every
manager state, calling release() results in userIntent = false". -/
theorem releaseLock_inactive_counterexample :
    releaseLock ReleaseOutcome.success
        { isActive := false, error := none, sentinel := false, userIntent := true } =
      { isActive := false, error := none, sentinel := false, userIntent := true } ∧
    (releaseLock ReleaseOutcome.success
        { isActive := false, error := none, sentinel := false, userIntent := true }).userIntent = true := by
  constructor <;> decide

/-- C6 (amended): `release()` sets `userIntent = false` whenever the hold
is active, and on successful completion transitions to inactive with the
handle cleared; when the hold is inactive it is a no-op and the entire
state — `userIntent` included — is unchanged. -/
theorem releaseLock_amended (s : WakeLockState) (o : ReleaseOutcome) :
    (s.isActive = true → (releaseLock o s).userIntent = false) ∧
    (s.isActive = true → s.sentinel = true →
       releaseLock ReleaseOutcome.success s =
         { s with userIntent := false, isActive := false, sentinel := false }) ∧
    (s.isActive = false → releaseLock o s = s) := by
  refine ⟨fun h => ?_, fun h hs => ?_, fun h => ?_⟩
  · cases o <;> by_cases hs : s.sentinel <;>
      simp [releaseLock, releaseWakeLock, onRelease, h, hs]
  · simp [releaseLock, releaseWakeLock, onRelease, h, hs]
  · simp [releaseLock, h]

theorem releaseLock_amended_witness :
    ((releaseLock ReleaseOutcome.success
        { isActive := true, error := none, sentinel := true, userIntent := true }).userIntent = false) ∧
    (releaseLock ReleaseOutcome.success
        { isActive := true, error := none, sentinel := true, userIntent := true } =
      { ({ isActive := true, error := none, sentinel := true, userIntent := true } : WakeLockState)
          with userIntent := false, isActive := false, sentinel := false }) ∧
    (releaseLock (ReleaseOutcome.failure "boom")
        { isActive := false, error := none, sentinel := false, userIntent := true } =
      { isActive := false, error := none, sentinel := false, userIntent := true }) :=
  ⟨(releaseLock_amended _ ReleaseOutcome.success).1 rfl,
   (releaseLock_amended _ ReleaseOutcome.success).2.1 rfl rfl,
   (releaseLock_amended _ _).2.2 rfl⟩

/-- C7: `acquire()` while the hold is already active performs no new
acquisition request and returns the state entirely unchanged. -/
theorem acquireLock_idempotent_when_active (supported : Bool) (o : AcquireOutcome)
    (s : WakeLockState) (h : s.isActive = true) :
    acquireLock supported o s = (s, false) := by
  simp [acquireLock, h]

theorem acquireLock_idempotent_when_active_witness :
    acquireLock true AcquireOutcome.success
        { isActive := true, error := none, sentinel := true, userIntent := true } =
      ({ isActive := true, error := none, sentinel := true, userIntent := true }, false) :=
  acquireLock_idempotent_when_active true AcquireOutcome.success _ rfl

/-! ### Claims about mode selection and the error handler -/

/-- C1: mode selection, evaluated once on entering `playing`, is total
and deterministic on every triple with `n ≥ 1` and `loop`, `relatedMode`
not both true; the selected mode matches the spec's §4.3 table, and
exactly one of the three source guards fires. -/
theorem modeSelection_total_matches_spec (n : Nat) (loop radioMode : Bool)
    (h1 : 1 ≤ n) (h2 : ¬(loop = true ∧ radioMode = true)) :
    selectMode n loop radioMode = specModeTable n loop radioMode ∧
    (selectMode n loop radioMode).isSome = true ∧
    ((if isUserPlaylist n radioMode then 1 else 0) +
       (if isSingleLooping n loop then 1 else 0) +
       (if isRadioOrSingleNoLoop n loop radioMode then 1 else 0) : Nat) = 1 := by
  match n, h1 with
  | 1, _ =>
    cases loop with
    | true =>
      cases radioMode with
      | true => exact absurd ⟨rfl, rfl⟩ h2
      | false => decide
    | false => cases radioMode <;> decide
  | (m + 2), _ =>
    have hgt : decide (m + 2 > 1) = true := by simp
    have hne : decide (m + 2 = 1) = false := by simp
    cases loop with
    | true =>
      cases radioMode with
      | true => exact absurd ⟨rfl, rfl⟩ h2
      | false =>
        simp [selectMode, specModeTable, isUserPlaylist, isSingleLooping,
              isRadioOrSingleNoLoop, hgt, hne]
    | false =>
      cases radioMode <;>
        simp [selectMode, specModeTable, isUserPlaylist, isSingleLooping,
              isRadioOrSingleNoLoop, hgt, hne]

theorem modeSelection_total_matches_spec_witness :
    selectMode 2 false false = specModeTable 2 false false ∧
    (selectMode 2 false false).isSome = true ∧
    ((if isUserPlaylist 2 false then 1 else 0) +
       (if isSingleLooping 2 false then 1 else 0) +
       (if isRadioOrSingleNoLoop 2 false false then 1 else 0) : Nat) = 1 :=
  modeSelection_total_matches_spec 2 false false (by omega) (by simp)

/-- C2 counterexample: in `SingleLoop` mode an unplayable error code
(100) leaves the state entirely unchanged — in particular the status
message stays `none`, so the error is NOT surfaced via the status,
refuting that part of the claim (no auto-advance and state = playing do
hold). -/
theorem onError_singleLoop_counterexample :
    selectMode singleLoopState.playlist.length singleLoopState.loop singleLoopState.radioMode =
      some Mode.SingleLoop ∧
    unplayableErrorCodes.contains 100 = true ∧
    singleLoopState.statusMessage = none ∧
    onError 100 singleLoopState = (singleLoopState, false) := by
  refine ⟨by decide, by decide, by decide, by decide⟩

/-- C2 (amended): for an error code in the fixed unplayable set
{2, 5, 100, 101, 150}: in `CollectionSequential`, `CollectionLooped` or
`RelatedStream` mode the handler instructs the player to advance and sets
the informational status message; in `SingleLoop` mode the handler does
nothing at all — no auto-advance and no status update (the error is not
surfaced) — and in every case the state stays `playing` (the handler
never touches `playbackState`). -/
theorem onError_amended (s : SchedState) (code : Int) (m : Mode)
    (hcode : unplayableErrorCodes.contains code = true)
    (hmode : selectMode s.playlist.length s.loop s.radioMode = some m)
    (hexcl : ¬(s.loop = true ∧ s.radioMode = true)) :
    (m ≠ Mode.SingleLoop →
       onError code s =
         ({ s with statusMessage := some "Unplayable video detected, skipping to next..." }, true)) ∧
    (m = Mode.SingleLoop → onError code s = (s, false)) ∧
    (onError code s).1.playbackState = s.playbackState := by
  have hmem : code ∈ unplayableErrorCodes := by simpa using hcode
  cases hu : isUserPlaylist s.playlist.length s.radioMode with
  | true =>
    rw [selectMode, if_pos hu] at hmode
    have hmne : m ≠ Mode.SingleLoop := by
      intro hm
      subst hm
      cases hlp : s.loop <;> simp [hlp] at hmode
    refine ⟨fun _ => ?_, fun hm => absurd hm hmne, ?_⟩
    · simp [onError, hu, hmem]
    · simp [onError, hu, hmem]
  | false =>
    cases hs : isSingleLooping s.playlist.length s.loop with
    | true =>
      rw [selectMode, if_neg (by simp [hu]), if_pos hs] at hmode
      have hm : m = Mode.SingleLoop := (Option.some.inj hmode).symm
      subst hm
      obtain ⟨hn1, hlp⟩ : s.playlist.length = 1 ∧ s.loop = true := by
        have h := hs
        unfold isSingleLooping at h
        simpa using h
      have hrm : s.radioMode = false := by
        cases hr2 : s.radioMode with
        | true => exact absurd ⟨hlp, hr2⟩ hexcl
        | false => rfl
      have hro : isRadioOrSingleNoLoop s.playlist.length s.loop s.radioMode = false := by
        unfold isRadioOrSingleNoLoop
        rw [hlp, hrm]
        simp
      refine ⟨fun hne => absurd rfl hne, fun _ => ?_, ?_⟩
      · simp [onError, hu, hro]
      · simp [onError, hu, hro]
    | false =>
      cases hr : isRadioOrSingleNoLoop s.playlist.length s.loop s.radioMode with
      | true =>
        rw [selectMode, if_neg (by simp [hu]), if_neg (by simp [hs]), if_pos hr] at hmode
        have hm : m = Mode.RelatedStream := (Option.some.inj hmode).symm
        subst hm
        refine ⟨fun _ => ?_, fun hm => absurd hm (by decide), ?_⟩
        · simp [onError, hu, hr, hmem]
        · simp [onError, hu, hr, hmem]
      | false =>
        rw [selectMode, if_neg (by simp [hu]), if_neg (by simp [hs]),
            if_neg (by simp [hr])] at hmode
        cases hmode

theorem onError_amended_witness :
    onError 100 twoItemState =
      ({ twoItemState with
          statusMessage := some "Unplayable video detected, skipping to next..." }, true) ∧
    onError 100 singleLoopState = (singleLoopState, false) ∧
    (onError 100 twoItemState).1.playbackState = twoItemState.playbackState :=
  ⟨(onError_amended twoItemState 100 Mode.CollectionSequential (by decide) (by decide)
      (by simp [twoItemState, initState])).1 (by decide),
   (onError_amended singleLoopState 100 Mode.SingleLoop (by decide) (by decide)
      (by simp [singleLoopState, initState])).2.1 rfl,
   (onError_amended twoItemState 100 Mode.CollectionSequential (by decide) (by decide)
      (by simp [twoItemState, initState])).2.2⟩

/-! ### Claims about scheduling -/

/-- The player-lifecycle effect only touches the player fields. -/
theorem runEffect_playbackState (s : SchedState) :
    (runEffect s).playbackState = s.playbackState := by
  simp only [runEffect, destroyPlayer, createPlayer]
  split <;> split <;> rfl

theorem runEffect_timer (s : SchedState) :
    (runEffect s).timer = s.timer := by
  simp only [runEffect, destroyPlayer, createPlayer]
  split <;> split <;> rfl

theorem runEffect_playlist (s : SchedState) :
    (runEffect s).playlist = s.playlist := by
  simp only [runEffect, destroyPlayer, createPlayer]
  split <;> split <;> rfl

/-- When the effect runs while playing with a non-empty playlist, the
body creates a player (after the cleanup destroyed any previous one). -/
theorem runEffect_playerRef_of (s : SchedState)
    (h1 : s.playbackState = PlaybackState.playing) (h2 : s.playlist ≠ []) :
    (runEffect s).playerRef = true := by
  simp only [runEffect, destroyPlayer, createPlayer]
  split <;> simp [h1, h2]

/-- C4: a schedule request with an empty playlist or a deadline at or
before `now` leaves the machine in `idle` with only a validation status
message set — no hold acquisition, no player start, no timer armed, no
other field changed — and never transitions to `playing`.  The
hypothesis `s.timer = none` holds in every reachable idle state (see the
trace invariant `Inv`). -/
theorem schedule_validation_no_side_effects (now : Int) (s : SchedState)
    (hidle : s.playbackState = PlaybackState.idle)
    (htimer : s.timer = none)
    (hv : s.playlist = [] ∨ s.shutdownTime ≤ now) :
    (handleSchedule now s).2 = false ∧
    (step (Event.schedule now) s =
        { s with statusMessage := some "Please add at least one video." } ∨
      step (Event.schedule now) s =
        { s with statusMessage := some "Scheduled time must be in the future." }) ∧
    (step (Event.schedule now) s).playbackState = PlaybackState.idle := by
  by_cases he : s.playlist = []
  · have hlen : s.playlist.length = 0 := by simp [he]
    refine ⟨?_, Or.inl ?_, ?_⟩ <;>
      simp [step, applyEvent, handleSchedule, deps, hidle, hlen]
  · have hle : s.shutdownTime ≤ now := by
      rcases hv with h | h
      · exact absurd h he
      · exact h
    have hlen : ¬s.playlist.length = 0 := by
      simpa [List.length_eq_zero] using he
    refine ⟨?_, Or.inr ?_, ?_⟩ <;>
      simp [step, applyEvent, handleSchedule, deps, hidle, htimer, hlen, hle]

theorem schedule_validation_no_side_effects_witness :
    (handleSchedule 0 (initState 5)).2 = false ∧
    (step (Event.schedule 0) (initState 5) =
        { initState 5 with statusMessage := some "Please add at least one video." } ∨
      step (Event.schedule 0) (initState 5) =
        { initState 5 with statusMessage := some "Scheduled time must be in the future." }) ∧
    (step (Event.schedule 0) (initState 5)).playbackState = PlaybackState.idle :=
  schedule_validation_no_side_effects 0 (initState 5) rfl rfl (Or.inl rfl)

/-- C9: a valid schedule request (non-empty playlist, future deadline)
transitions to `playing`, arms the timer and creates the player
regardless of the hold-acquisition outcome; a permission-denied
acquisition is reflected in the lock's observable `error` instead of
aborting the session. -/
theorem schedule_proceeds_despite_lock_failure (now : Int) (o : AcquireOutcome) (a : AppState)
    (hidle : a.sched.playbackState = PlaybackState.idle)
    (hne : a.sched.playlist ≠ [])
    (hfut : now < a.sched.shutdownTime) :
    (scheduleApp now o a).sched.playbackState = PlaybackState.playing ∧
    (scheduleApp now o a).sched.timer = some a.sched.shutdownTime ∧
    (scheduleApp now o a).sched.playerRef = true ∧
    (a.lock.isActive = false → o = AcquireOutcome.notAllowed →
       (scheduleApp now o a).lock.error = some permissionDeniedMsg) := by
  have hlen : ¬a.sched.playlist.length = 0 := by
    simpa [List.length_eq_zero] using hne
  have hnle : ¬a.sched.shutdownTime ≤ now := not_le.mpr hfut
  set sNew : SchedState :=
    { a.sched with playbackState := PlaybackState.playing,
                   statusMessage := some "Loading player and starting timer...",
                   timer := some a.sched.shutdownTime } with hsNew
  have hhs : handleSchedule now a.sched = (sNew, true) := by
    simp [handleSchedule, hlen, hnle, hsNew]
  have hdeps : ¬(deps a.sched = deps sNew) := by
    intro hd
    have hpb := congrArg (fun p => p.1) hd
    simp [deps, hsNew, hidle] at hpb
  have hsched : (scheduleApp now o a).sched = runEffect sNew := by
    simp only [scheduleApp, hhs]
    rw [if_neg hdeps]
  have hlock : (scheduleApp now o a).lock = (acquireLock true o a.lock).1 := by
    simp only [scheduleApp, hhs]
    rfl
  refine ⟨?_, ?_, ?_, fun hact hno => ?_⟩
  · rw [hsched, runEffect_playbackState]
  · rw [hsched, runEffect_timer]
  · refine hsched ▸ runEffect_playerRef_of sNew rfl ?_
    simpa [hsNew] using hne
  · subst hno
    rw [hlock]
    simp [acquireLock, requestWakeLock, hact]

theorem schedule_proceeds_despite_lock_failure_witness :
    (scheduleApp 0 AcquireOutcome.notAllowed readyAppState).sched.playbackState =
      PlaybackState.playing ∧
    (scheduleApp 0 AcquireOutcome.notAllowed readyAppState).sched.timer =
      some readyAppState.sched.shutdownTime ∧
    (scheduleApp 0 AcquireOutcome.notAllowed readyAppState).sched.playerRef = true ∧
    (scheduleApp 0 AcquireOutcome.notAllowed readyAppState).lock.error =
      some permissionDeniedMsg := by
  have h := schedule_proceeds_despite_lock_failure 0 AcquireOutcome.notAllowed readyAppState rfl
    (by decide) (by decide)
  exact ⟨h.1, h.2.1, h.2.2.1, h.2.2.2 rfl rfl⟩

/-! ### The trace invariant -/

theorem inv_runEffect (s : SchedState)
    (h2 : s.liveInstances = if s.playerRef then 1 else 0)
    (h3 : s.playbackState = PlaybackState.playing → s.playlist ≠ [])
    (h4 : s.timer.isSome = true → s.playbackState = PlaybackState.playing)
    (h5 : (s.playlist.map PlaylistItem.id).Nodup) :
    Inv (runEffect s) := by
  unfold Inv runEffect destroyPlayer createPlayer
  by_cases hp : s.playerRef = true
  · rw [if_pos hp]
    by_cases hc : s.playbackState = PlaybackState.playing ∧ s.playlist ≠ []
    · rw [if_pos hc]
      rw [hp] at h2
      simp only [if_pos rfl] at h2
      exact ⟨by simp [hc], by simp [h2], fun _ => hc.2, fun _ => hc.1, h5⟩
    · rw [if_neg hc]
      rw [hp] at h2
      simp only [if_pos rfl] at h2
      exact ⟨by simp [hc], by simp [h2], fun hq => h3 hq, fun hq => h4 hq, h5⟩
  · rw [if_neg hp]
    have hp0 : s.playerRef = false := by
      cases hb : s.playerRef
      · rfl
      · exact absurd hb hp
    rw [hp0] at h2
    simp only [Bool.false_eq_true, if_false] at h2
    by_cases hc : s.playbackState = PlaybackState.playing ∧ s.playlist ≠ []
    · rw [if_pos hc]
      exact ⟨by simp [hc], by simp [h2], fun _ => hc.2, fun _ => hc.1, h5⟩
    · rw [if_neg hc]
      exact ⟨by simp [hp0, hc], by simp [hp0, h2], h3, h4, h5⟩

theorem inv_ite_aux (s s1 : SchedState)
    (h1 : deps s = deps s1 → Inv s1)
    (h2 : s1.liveInstances = if s1.playerRef then 1 else 0)
    (h3 : s1.playbackState = PlaybackState.playing → s1.playlist ≠ [])
    (h4 : s1.timer.isSome = true → s1.playbackState = PlaybackState.playing)
    (h5 : (s1.playlist.map PlaylistItem.id).Nodup) :
    Inv (if deps s = deps s1 then s1 else runEffect s1) := by
  by_cases h : deps s = deps s1
  · rw [if_pos h]
    exact h1 h
  · rw [if_neg h]
    exact inv_runEffect s1 h2 h3 h4 h5

/-- If an event handler leaves every `Inv`-relevant field unchanged, the
invariant carries over. -/
theorem inv_untouched (s s1 : SchedState) (h : Inv s)
    (hpl : s1.playlist = s.playlist)
    (hpb : s1.playbackState = s.playbackState)
    (htm : s1.timer = s.timer)
    (hpr : s1.playerRef = s.playerRef)
    (hli : s1.liveInstances = s.liveInstances) :
    Inv (if deps s = deps s1 then s1 else runEffect s1) := by
  obtain ⟨i1, i2, i3, i4, i5⟩ := h
  refine inv_ite_aux s s1 ?_ ?_ ?_ ?_ ?_
  · intro _
    refine ⟨?_, ?_, ?_, ?_, ?_⟩
    · rw [hpr, hpb, hpl]; exact i1
    · rw [hli, hpr]; exact i2
    · rw [hpb, hpl]; exact i3
    · rw [htm, hpb]; exact i4
    · rw [hpl]; exact i5
  · rw [hli, hpr]; exact i2
  · rw [hpb, hpl]; exact i3
  · rw [htm, hpb]; exact i4
  · rw [hpl]; exact i5

/-- In an idle state a handler may rewrite the playlist (add/remove);
the invariant carries over as long as the new id list is distinct. -/
theorem inv_idle_playlist (s s1 : SchedState) (h : Inv s)
    (hid : s.playbackState = PlaybackState.idle)
    (hpb : s1.playbackState = s.playbackState)
    (htm : s1.timer = s.timer)
    (hpr : s1.playerRef = s.playerRef)
    (hli : s1.liveInstances = s.liveInstances)
    (h5 : (s1.playlist.map PlaylistItem.id).Nodup) :
    Inv (if deps s = deps s1 then s1 else runEffect s1) := by
  obtain ⟨i1, i2, i3, i4, _⟩ := h
  have href : s.playerRef = false := by
    cases hrf : s.playerRef with
    | false => rfl
    | true =>
      have hq := (i1.mp hrf).1
      rw [hid] at hq
      exact absurd hq (by decide)
  have htm0 : s.timer = none := by
    cases ht : s.timer with
    | none => rfl
    | some v =>
      have hq := i4 (by rw [ht]; rfl)
      rw [hid] at hq
      exact absurd hq (by decide)
  refine inv_ite_aux s s1 ?_ ?_ ?_ ?_ h5
  · intro _
    refine ⟨?_, ?_, ?_, ?_, h5⟩
    · rw [hpr, href, hpb, hid]
      simp
    · rw [hli, hpr]; exact i2
    · rw [hpb, hid]; intro hq; exact absurd hq (by decide)
    · rw [htm, htm0]; intro hq; exact absurd hq (by simp)
  · rw [hli, hpr]; exact i2
  · rw [hpb, hid]; intro hq; exact absurd hq (by decide)
  · rw [htm, htm0]; intro hq; exact absurd hq (by simp)

/-- A pending timer forces the playing state, so idle states have none. -/
theorem timer_none_of_idle (s : SchedState) (h : Inv s)
    (hid : s.playbackState = PlaybackState.idle) : s.timer = none := by
  cases ht : s.timer with
  | none => rfl
  | some v =>
    have hq := h.2.2.2.1 (by rw [ht]; rfl)
    rw [hid] at hq
    exact absurd hq (by decide)

/-- Adding a genuinely new id preserves distinctness. -/
theorem nodup_append_new (pl : List PlaylistItem) (it : PlaylistItem)
    (h : (pl.map PlaylistItem.id).Nodup)
    (hmem : ¬pl.any (fun v => v.id = it.id) = true) :
    ((pl ++ [it]).map PlaylistItem.id).Nodup := by
  rw [List.map_append, List.nodup_append]
  refine ⟨h, List.nodup_singleton _, ?_⟩
  intro a ha hb
  have hab : a = it.id := by simpa using hb
  obtain ⟨v, hv, hva⟩ := List.mem_map.mp ha
  apply hmem
  apply List.any_eq_true.mpr
  refine ⟨v, hv, ?_⟩
  simp [hva, hab]

/-- Removing items preserves distinctness. -/
theorem nodup_filter_ids (pl : List PlaylistItem) (p : PlaylistItem → Bool)
    (h : (pl.map PlaylistItem.id).Nodup) :
    ((pl.filter p).map PlaylistItem.id).Nodup :=
  h.sublist ((pl.filter_sublist).map PlaylistItem.id)

theorem handleSchedule_empty (now : Int) (s : SchedState)
    (h : s.playlist.length = 0) :
    handleSchedule now s =
      ({ s with statusMessage := some "Please add at least one video." }, false) := by
  simp [handleSchedule, h]

theorem handleSchedule_past (now : Int) (s : SchedState)
    (h : ¬s.playlist.length = 0) (hle : s.shutdownTime ≤ now) :
    handleSchedule now s =
      ({ s with timer := none,
                statusMessage := some "Scheduled time must be in the future." }, false) := by
  simp [handleSchedule, h, hle]

theorem handleSchedule_valid (now : Int) (s : SchedState)
    (h : ¬s.playlist.length = 0) (hle : ¬s.shutdownTime ≤ now) :
    handleSchedule now s =
      ({ s with playbackState := PlaybackState.playing,
                statusMessage := some "Loading player and starting timer...",
                timer := some s.shutdownTime }, true) := by
  simp [handleSchedule, h, hle]

/-- The player error handler only ever writes the status message. -/
theorem onError_fields (c : Int) (s : SchedState) :
    (onError c s).1.playlist = s.playlist ∧
    (onError c s).1.playbackState = s.playbackState ∧
    (onError c s).1.timer = s.timer ∧
    (onError c s).1.playerRef = s.playerRef ∧
    (onError c s).1.liveInstances = s.liveInstances := by
  unfold onError
  dsimp only
  split <;> exact ⟨rfl, rfl, rfl, rfl, rfl⟩

/-- The PLAYING state-change handler only writes the status message and
the highlighted index. -/
theorem onPlaying_fields (i : Nat) (s : SchedState) :
    (onPlaying i s).playlist = s.playlist ∧
    (onPlaying i s).playbackState = s.playbackState ∧
    (onPlaying i s).timer = s.timer ∧
    (onPlaying i s).playerRef = s.playerRef ∧
    (onPlaying i s).liveInstances = s.liveInstances := by
  unfold onPlaying
  split <;> split <;> exact ⟨rfl, rfl, rfl, rfl, rfl⟩

/-- Every event reaction preserves the invariant. -/
theorem inv_step (e : Event) (s : SchedState) (h : Inv s) : Inv (step e s) := by
  cases e with
  | setUrl u =>
    simp only [step, applyEvent]
    by_cases hid : s.playbackState = PlaybackState.idle
    · rw [if_pos hid]
      exact inv_untouched s _ h rfl rfl rfl rfl rfl
    · rw [if_neg hid]
      exact inv_untouched s s h rfl rfl rfl rfl rfl
  | addVideo =>
    simp only [step, applyEvent]
    by_cases hid : s.playbackState = PlaybackState.idle
    · rw [if_pos hid]
      unfold handleAddVideo
      cases hp : parseYouTubeVideoUrl s.url with
      | none => exact inv_untouched s _ h rfl rfl rfl rfl rfl
      | some vid =>
        dsimp only
        by_cases hmem : s.playlist.any (fun v => v.id = vid) = true
        · rw [if_pos hmem]
          exact inv_untouched s _ h rfl rfl rfl rfl rfl
        · rw [if_neg hmem]
          refine inv_idle_playlist s _ h hid rfl rfl rfl rfl ?_
          exact nodup_append_new s.playlist _ h.2.2.2.2 hmem
    · rw [if_neg hid]
      exact inv_untouched s s h rfl rfl rfl rfl rfl
  | removeVideo i =>
    simp only [step, applyEvent]
    by_cases hid : s.playbackState = PlaybackState.idle
    · rw [if_pos hid]
      refine inv_idle_playlist s _ h hid rfl rfl rfl rfl ?_
      exact nodup_filter_ids s.playlist _ h.2.2.2.2
    · rw [if_neg hid]
      exact inv_untouched s s h rfl rfl rfl rfl rfl
  | toggleLoop b =>
    simp only [step, applyEvent]
    by_cases hid : s.playbackState = PlaybackState.idle
    · rw [if_pos hid]
      exact inv_untouched s _ h rfl rfl rfl rfl rfl
    · rw [if_neg hid]
      exact inv_untouched s s h rfl rfl rfl rfl rfl
  | toggleRadio b =>
    simp only [step, applyEvent]
    by_cases hid : s.playbackState = PlaybackState.idle
    · rw [if_pos hid]
      exact inv_untouched s _ h rfl rfl rfl rfl rfl
    · rw [if_neg hid]
      exact inv_untouched s s h rfl rfl rfl rfl rfl
  | toggleAutoClose b =>
    simp only [step, applyEvent]
    by_cases hid : s.playbackState = PlaybackState.idle
    · rw [if_pos hid]
      exact inv_untouched s _ h rfl rfl rfl rfl rfl
    · rw [if_neg hid]
      exact inv_untouched s s h rfl rfl rfl rfl rfl
  | setShutdown t =>
    simp only [step, applyEvent]
    by_cases hid : s.playbackState = PlaybackState.idle
    · rw [if_pos hid]
      exact inv_untouched s _ h rfl rfl rfl rfl rfl
    · rw [if_neg hid]
      exact inv_untouched s s h rfl rfl rfl rfl rfl
  | schedule now =>
    simp only [step, applyEvent]
    by_cases hid : s.playbackState = PlaybackState.idle
    · rw [if_pos hid]
      by_cases hlen : s.playlist.length = 0
      · rw [handleSchedule_empty now s hlen]
        exact inv_untouched s _ h rfl rfl rfl rfl rfl
      · by_cases hle : s.shutdownTime ≤ now
        · rw [handleSchedule_past now s hlen hle]
          have htm0 := timer_none_of_idle s h hid
          refine inv_untouched s _ h rfl rfl ?_ rfl rfl
          exact htm0.symm
        · rw [handleSchedule_valid now s hlen hle]
          refine inv_ite_aux s _ ?_ ?_ ?_ ?_ ?_
          · intro hd
            exfalso
            have hc := congrArg (fun p => p.1) hd
            simp only [deps] at hc
            rw [hid] at hc
            exact absurd hc (by decide)
          · exact h.2.1
          · intro _
            intro hq
            exact hlen (by rw [hq]; rfl)
          · intro _
            rfl
          · exact h.2.2.2.2
    · rw [if_neg hid]
      exact inv_untouched s s h rfl rfl rfl rfl rfl
  | cancel =>
    simp only [step, applyEvent]
    by_cases hpg : s.playbackState = PlaybackState.playing
    · rw [if_pos hpg]
      refine inv_ite_aux s _ ?_ ?_ ?_ ?_ ?_
      · intro hd
        exfalso
        have hc := congrArg (fun p => p.1) hd
        simp only [deps] at hc
        rw [hpg] at hc
        simp [handleCancel] at hc
      · exact h.2.1
      · intro hq
        simp [handleCancel] at hq
      · intro hq
        simp [handleCancel] at hq
      · exact h.2.2.2.2
    · rw [if_neg hpg]
      exact inv_untouched s s h rfl rfl rfl rfl rfl
  | reset d =>
    simp only [step, applyEvent]
    by_cases hpg : s.playbackState = PlaybackState.finished
    · rw [if_pos hpg]
      refine inv_ite_aux s _ ?_ ?_ ?_ ?_ ?_
      · intro hd
        exfalso
        have hc := congrArg (fun p => p.1) hd
        simp only [deps] at hc
        rw [hpg] at hc
        simp [handleReset] at hc
      · exact h.2.1
      · intro hq
        simp [handleReset] at hq
      · intro hq
        simp [handleReset] at hq
      · simp [handleReset]
    · rw [if_neg hpg]
      exact inv_untouched s s h rfl rfl rfl rfl rfl
  | deadline =>
    simp only [step, applyEvent]
    by_cases htm : s.timer.isSome = true
    · rw [if_pos htm]
      have hpg := h.2.2.2.1 htm
      refine inv_ite_aux s _ ?_ ?_ ?_ ?_ ?_
      · intro hd
        exfalso
        have hc := congrArg (fun p => p.1) hd
        simp only [deps] at hc
        rw [hpg] at hc
        simp [timerFire] at hc
      · exact h.2.1
      · intro hq
        simp [timerFire] at hq
      · intro hq
        simp [timerFire] at hq
      · exact h.2.2.2.2
    · rw [if_neg htm]
      exact inv_untouched s s h rfl rfl rfl rfl rfl
  | playerError c =>
    simp only [step, applyEvent]
    by_cases hpr : s.playerRef = true
    · rw [if_pos hpr]
      obtain ⟨f1, f2, f3, f4, f5⟩ := onError_fields c s
      exact inv_untouched s _ h f1 f2 f3 f4 f5
    · rw [if_neg hpr]
      exact inv_untouched s s h rfl rfl rfl rfl rfl
  | playerPlaying i =>
    simp only [step, applyEvent]
    by_cases hpr : s.playerRef = true
    · rw [if_pos hpr]
      obtain ⟨f1, f2, f3, f4, f5⟩ := onPlaying_fields i s
      exact inv_untouched s _ h f1 f2 f3 f4 f5
    · rw [if_neg hpr]
      exact inv_untouched s s h rfl rfl rfl rfl rfl

theorem inv_init (d : Int) : Inv (initState d) := by
  refine ⟨by simp [initState], by simp [initState], by simp [initState],
          by simp [initState], by simp [initState]⟩

theorem inv_foldl (es : List Event) (s : SchedState) (h : Inv s) :
    Inv (es.foldl (fun t e => step e t) s) := by
  induction es generalizing s with
  | nil => simpa using h
  | cons e es ih => exact ih (step e s) (inv_step e s h)

theorem inv_run (d : Int) (es : List Event) : Inv (run d es) :=
  inv_foldl es (initState d) (inv_init d)

/-! ### Claims about the player lifecycle and the playlist -/

/-- C5: along every event trace from the initial state, the number of
live external player instances is exactly one while `playing` and
exactly zero otherwise — so entering `playing` (the effect destroys any
pre-existing instance before creating the new one) and every transition
out of `playing` (cancel, deadline, reset, content/mode change) leave no
extra or orphaned instance, and at most one instance is ever live. -/
theorem single_player_instance (d : Int) (es : List Event) :
    (run d es).liveInstances =
      (if (run d es).playbackState = PlaybackState.playing then 1 else 0) ∧
    (run d es).liveInstances ≤ 1 := by
  obtain ⟨i1, i2, i3, _, _⟩ := inv_run d es
  have hmain : (run d es).liveInstances =
      (if (run d es).playbackState = PlaybackState.playing then 1 else 0) := by
    rw [i2]
    by_cases hp : (run d es).playerRef = true
    · rw [if_pos hp, if_pos (i1.mp hp).1]
    · by_cases hq : (run d es).playbackState = PlaybackState.playing
      · exact absurd (i1.mpr ⟨hq, i3 hq⟩) hp
      · rw [if_neg hp, if_neg hq]
  refine ⟨hmain, ?_⟩
  rw [hmain]
  split
  · exact le_refl 1
  · exact Nat.zero_le 1

/-- C10: along every event trace the playlist ids are pairwise distinct,
and adding a locator whose parsed id is already present is rejected with
the duplicate status message and an otherwise unchanged state. -/
theorem playlist_ids_distinct :
    (∀ (d : Int) (es : List Event), ((run d es).playlist.map PlaylistItem.id).Nodup) ∧
    (∀ (s : SchedState) (vid : String),
       parseYouTubeVideoUrl s.url = some vid →
       s.playlist.any (fun v => v.id = vid) = true →
       handleAddVideo s =
         { s with statusMessage := some "This video is already in the playlist." }) := by
  constructor
  · intro d es
    exact (inv_run d es).2.2.2.2
  · intro s vid hp hmem
    unfold handleAddVideo
    rw [hp]
    dsimp only
    rw [if_pos hmem]

theorem playlist_ids_distinct_witness :
    ((run 0 []).playlist.map PlaylistItem.id).Nodup ∧
    handleAddVideo dupUrlState =
      { dupUrlState with statusMessage := some "This video is already in the playlist." } :=
  ⟨playlist_ids_distinct.1 0 [],
   playlist_ids_distinct.2 dupUrlState "dQw4w9WgXcQ" (by decide) (by decide)⟩

/-! ### Claims about the ContentResolver -/

/-- C8 counterexample: this locator carries a collection marker
(`list=`) alongside a single-item marker, yet `resolve` returns the bare
single-item id — the resolver has no collection handling at all, so no
`Collection` reference is produced and the claimed precedence fails. -/
theorem resolve_collection_marker_counterexample :
    hasCollectionMarker collectionCexUrl = true ∧
    parseYouTubeVideoUrl collectionCexUrl = some "dQw4w9WgXcQ" := by
  constructor
  · decide
  · decide

theorem captureId_spec (cs : List Char) (s : String) (h : captureId cs = some s) :
    s.length = 11 ∧ s.data.all isIdChar = true := by
  unfold captureId at h
  by_cases hc : (cs.take 11).length = 11 && (cs.take 11).all isIdChar
  · rw [if_pos hc] at h
    obtain ⟨h1, h2⟩ := Bool.and_eq_true_iff.mp hc
    cases h
    exact ⟨by simpa [String.length] using of_decide_eq_true h1, h2⟩
  · rw [if_neg hc] at h
    cases h

theorem firstCapture_spec (rs : List (List Char)) (s : String)
    (h : firstCapture rs = some s) : ∃ cs, captureId cs = some s := by
  induction rs with
  | nil => cases h
  | cons r rs ih =>
    unfold firstCapture at h
    cases hr : captureId r with
    | some t =>
      rw [hr] at h
      cases h
      exact ⟨r, hr⟩
    | none =>
      rw [hr] at h
      exact ih h

theorem scanMatch_spec (cs : List Char) (s : String)
    (h : scanMatch cs = some s) : ∃ r, captureId r = some s := by
  induction cs with
  | nil => exact firstCapture_spec _ _ h
  | cons c rest ih =>
    unfold scanMatch at h
    cases hm : matchFrom (c :: rest) with
    | some t =>
      rw [hm] at h
      cases h
      exact firstCapture_spec _ _ hm
    | none =>
      rw [hm] at h
      exact ih h

/-- C8 (amended): `resolve` performs only single-item extraction — every
successful result is an 11-character id drawn from the id alphabet (a
collection marker is never honoured; see the counterexample), and the
result is `none` (`ParseError`) exactly when no known single-item shape
matches. -/
theorem resolve_single_item_only (url : String) :
    parseYouTubeVideoUrl url = none ∨
    ∃ id, parseYouTubeVideoUrl url = some id ∧
      id.length = 11 ∧ id.data.all isIdChar = true := by
  cases hp : parseYouTubeVideoUrl url with
  | none => exact Or.inl rfl
  | some id =>
    refine Or.inr ⟨id, rfl, ?_⟩
    obtain ⟨r, hr⟩ := scanMatch_spec url.data id hp
    exact captureId_spec r id hr

end ScreenAwake
